import Mathlib

/-!
Verification of the Experfolio AI service's Resilient Orchestration Engine
against its natural-language specification.

This file shallowly embeds the Python sources:
  - `app/core/result.py`      (Result model: `Ok` / `Err` with a typed error taxonomy)
  - `app/services/retry_executor.py`        (`RetryExecutor.run`)
  - `app/services/batch_service.py`         (`BatchService`)
  - `app/services/portfolio_processor.py`   (`PortfolioProcessor`)
  - `app/repositories/portfolio_repository.py` (`find_needing_embedding`)
  - `app/services/search_service.py`        (`SearchService`)
  - `app/services/analysis_service.py`      (`analyze_candidate_match` validation)

External collaborators (file system, OCR, embedding model, MongoDB,
reranker model, LLM) are modelled as oracle functions bundled in
environment structures; each oracle can return a value or raise, mirroring
the exception behaviour the Python code handles.  Side effects that the
specification talks about (sleeps between retries, number of extraction /
embedding / update calls) are made observable by threading explicit traces.
-/

/-- The error taxonomy of `app/core/result.py`: one constructor per concrete
`ErrorType` subclass (`NetworkError`, `RateLimitError`, `TimeoutError`,
`InvalidDataError`, `AuthenticationError`, `ConfigurationError`,
`SystemError`). -/
inductive ErrKind
  | network
  | rateLimit
  | timeout
  | invalidData
  | authentication
  | configuration
  | system
deriving DecidableEq, Repr

/-- `is_retryable()` of each `ErrorType` subclass in `app/core/result.py`. -/
def ErrKind.isRetryable : ErrKind → Bool
  | .network => true
  | .rateLimit => true
  | .timeout => true
  | .invalidData => false
  | .authentication => false
  | .configuration => false
  | .system => false

/-- `retry_delay()` of each `ErrorType` subclass in `app/core/result.py`. -/
def ErrKind.retryDelay : ErrKind → ℚ
  | .network => 1
  | .rateLimit => 60
  | .timeout => 5
  | .invalidData => 0
  | .authentication => 0
  | .configuration => 0
  | .system => 0

/-- The `Result = Union[Ok[T], Err]` type of `app/core/result.py`.  The
`Err` payload is reduced to its `ErrorType` kind: the wrapped exception and
context dict never influence control flow in the embedded code. -/
inductive PyResult (V : Type)
  | ok (v : V)
  | err (k : ErrKind)
deriving DecidableEq, Repr

/-- Whether a `Result` is the `Ok` variant. -/
def PyResult.isOk {V : Type} : PyResult V → Bool
  | .ok _ => true
  | .err _ => false

/-- Whether a `Result` is an `Err` whose kind is retryable
(`Err.is_retryable` in `app/core/result.py`). -/
def PyResult.isRetryableErr {V : Type} : PyResult V → Bool
  | .ok _ => false
  | .err k => k.isRetryable

/-- Whether a `Result` is an `Err` whose kind is not retryable. -/
def PyResult.isPermanentErr {V : Type} : PyResult V → Bool
  | .ok _ => false
  | .err k => !k.isRetryable

/-- One call of the `task` given to `RetryExecutor.run`: the awaited call
either returns a `Result` or raises an exception. -/
inductive TaskStep (V : Type)
  | ret (r : PyResult V)
  | raise
deriving DecidableEq, Repr

/-- Observable outcome of `RetryExecutor.run`
(`app/services/retry_executor.py`): the returned value (`none` models
Python's `None`, which `run` returns when the attempt loop never runs),
the `asyncio.sleep` durations in order, and how many times the task was
called. -/
structure RunTrace (V : Type) where
  result : Option (PyResult V)
  sleeps : List ℚ
  calls : Nat
deriving DecidableEq, Repr

/-- The `for attempt in range(self._max_retries)` loop of
`RetryExecutor.run`, recursing on the number of remaining iterations with
the current `attempt` index carried explicitly.  `lastErr` is the
`last_error_result` variable, `sleeps`/`calls` accumulate the trace.
Branches, in source order: `Ok` returns at once; a retryable `Err` with
`attempt < max_retries - 1` sleeps `initial_delay * 2 ** attempt` and
continues; any other `Err` is returned; an exception from the task is
caught and returned as `Err(SystemError(...))`. -/
def RetryExecutor.runLoop {V : Type} (maxRetries : Nat) (initialDelay : ℚ)
    (task : Nat → TaskStep V) :
    Nat → Nat → Option (PyResult V) → List ℚ → Nat → RunTrace V
  | 0, _, lastErr, sleeps, calls => ⟨lastErr, sleeps, calls⟩
  | remaining + 1, attempt, lastErr, sleeps, calls =>
    match task attempt with
    | .raise => ⟨some (.err .system), sleeps, calls + 1⟩
    | .ret (.ok v) => ⟨some (.ok v), sleeps, calls + 1⟩
    | .ret (.err k) =>
      if k.isRetryable ∧ attempt < maxRetries - 1 then
        RetryExecutor.runLoop maxRetries initialDelay task remaining (attempt + 1)
          (some (.err k)) (sleeps ++ [initialDelay * 2 ^ attempt]) (calls + 1)
      else ⟨some (.err k), sleeps, calls + 1⟩

/-- `RetryExecutor.run(task)` from `app/services/retry_executor.py`, for an
executor constructed with `max_retries` and `initial_delay`.  The task is
modelled as a function from the call index (0-based) to that call's
behaviour. -/
def RetryExecutor.run {V : Type} (maxRetries : Nat) (initialDelay : ℚ)
    (task : Nat → TaskStep V) : RunTrace V :=
  RetryExecutor.runLoop maxRetries initialDelay task maxRetries 0 none [] 0

/-- `extractionStatus` values an attachment can carry (`unset` is modelled
as `Option.none` at the use sites). -/
inductive ExtStatus
  | completed
  | failed
deriving DecidableEq, Repr

/-- One entry of `portfolioItems[i].attachments` in a portfolio document:
`filePath` and the mutable `extractionStatus` field (absent key = `none`). -/
structure Attachment where
  filePath : Option String
  extractionStatus : Option ExtStatus
deriving DecidableEq, Repr

/-- One award object under `basicInfo.awards`. -/
structure Award where
  awardName : Option String
  achievement : Option String
  awardY : Option String
deriving DecidableEq, Repr

/-- One certification object under `basicInfo.certifications`. -/
structure Certification where
  certificationName : Option String
  issueY : Option String
deriving DecidableEq, Repr

/-- One language-test object under `basicInfo.languages`. -/
structure LanguageTest where
  testName : Option String
  score : Option String
  issueY : Option String
deriving DecidableEq, Repr

/-- The `basicInfo` sub-document of a portfolio. -/
structure BasicInfo where
  name : Option String
  schoolName : Option String
  major : Option String
  desiredPosition : Option String
  awards : List Award
  certifications : List Certification
  languages : List LanguageTest
deriving DecidableEq, Repr

/-- One entry of `portfolioItems`. -/
structure PortfolioItem where
  title : Option String
  content : Option String
  attachments : List Attachment
deriving DecidableEq, Repr

/-- A portfolio document as read from MongoDB: `_id`, `basicInfo`,
`portfolioItems`, and `processingStatus.needsEmbedding`.  Absent optional
fields are `none`; Python truthiness of a string field is `getD "" ≠ ""`. -/
structure Portfolio where
  id : String
  basicInfo : BasicInfo
  portfolioItems : List PortfolioItem
  needsEmbedding : Bool
deriving DecidableEq, Repr

/-- All attachments of a portfolio across its items, in iteration order. -/
def Portfolio.allAttachments (p : Portfolio) : List Attachment :=
  (p.portfolioItems.map PortfolioItem.attachments).flatten

/-- Python truthiness check `if d.get(key):` for an optional string field. -/
def truthy (o : Option String) : Bool :=
  o.getD "" ≠ ""

/-- `[prefix + value]` when the optional field is truthy, `[]` otherwise:
the conditional `texts.append(f"...: {value}")` pattern of
`_collect_texts`. -/
def optText (pre : String) (o : Option String) : List String :=
  if truthy o then [pre ++ o.getD ""] else []

/-- `BatchService._collect_texts` (`app/services/batch_service.py`):
identity fields, then awards / certifications / languages, then item
titles and contents, in source order and formatting (no year suffixes). -/
def collectTextsB (p : Portfolio) : List String :=
  let bi := p.basicInfo
  optText "이름: " bi.name ++ optText "학교: " bi.schoolName ++
    optText "전공: " bi.major ++ optText "희망직무: " bi.desiredPosition ++
    bi.awards.map (fun a => "수상: " ++ a.awardName.getD "" ++ " - " ++ a.achievement.getD "") ++
    bi.certifications.map (fun c => "자격증: " ++ c.certificationName.getD "") ++
    bi.languages.map (fun l => "어학: " ++ l.testName.getD "" ++ " " ++ l.score.getD "") ++
    (p.portfolioItems.map (fun it =>
      optText "제목: " it.title ++ (if truthy it.content then [it.content.getD ""] else []))).flatten

/-- `PortfolioProcessor._collect_texts`
(`app/services/portfolio_processor.py`): same ordering as the batch
version but with year suffixes appended to awards, certifications and
language tests when the year field is truthy. -/
def collectTextsP (p : Portfolio) : List String :=
  let bi := p.basicInfo
  optText "이름: " bi.name ++ optText "학교: " bi.schoolName ++
    optText "전공: " bi.major ++ optText "희망직무: " bi.desiredPosition ++
    bi.awards.map (fun a =>
      let base := "수상: " ++ a.awardName.getD "" ++ " - " ++ a.achievement.getD ""
      if truthy a.awardY then base ++ " (" ++ a.awardY.getD "" ++ "년)" else base) ++
    bi.certifications.map (fun c =>
      let base := "자격증: " ++ c.certificationName.getD ""
      if truthy c.issueY then base ++ " (" ++ c.issueY.getD "" ++ "년 취득)" else base) ++
    bi.languages.map (fun l =>
      let base := "어학: " ++ l.testName.getD "" ++ " " ++ l.score.getD ""
      if truthy l.issueY then base ++ " (" ++ l.issueY.getD "" ++ "년 취득)" else base) ++
    (p.portfolioItems.map (fun it =>
      optText "제목: " it.title ++ (if truthy it.content then [it.content.getD ""] else []))).flatten

/-- Python's `str.strip()` on the character list: drop leading and
trailing whitespace. -/
def stripCore (l : List Char) : List Char :=
  ((l.dropWhile Char.isWhitespace).reverse.dropWhile Char.isWhitespace).reverse

/-- Python's `str.strip()` with no arguments. -/
def pyStrip (s : String) : String := ⟨stripCore s.data⟩

/-- `_create_searchable_text` (identical in both services): keep the
fragments that are non-empty and non-empty after stripping, strip each,
and join with a blank line. -/
def createSearchableText (texts : List String) : String :=
  String.intercalate "\n\n"
    ((texts.filter (fun t => t ≠ "" && pyStrip t ≠ "")).map pyStrip)

/-- Outcome of one call of an external collaborator: a returned value or a
raised exception. -/
inductive CallOutcome (A : Type)
  | ret (a : A)
  | raise
deriving DecidableEq, Repr

/-- Oracle environment for the batch-side collaborators: the file system
(`FileHandler.file_exists`), file reading plus OCR
(`FileHandler.read_file` followed by `OCRProcessor.extract_text`, combined
and keyed by file path), document embedding
(`EmbeddingService.embed_passage`, which catches its own exceptions and
always returns a `Result`), and the repository update methods (keyed by
portfolio id; `update_embeddings_and_status` and `mark_as_processed` are
the storage operations `PortfolioProcessor` expects — in the repository
source only `update_embeddings` exists, so the other two are modelled at
the storage interface boundary the spec gives in its §6). -/
structure BatchEnv where
  fileExists : String → Bool
  extractText : String → CallOutcome String
  embedPassage : String → PyResult (List Int)
  updateEmbeddings : String → CallOutcome Bool
  updateEmbeddingsAndStatus : String → CallOutcome Bool
  markAsProcessed : String → CallOutcome Bool

/-- Result of processing the attachments of one portfolio:
extracted texts in order, the (possibly mutated) attachment lists, and the
number of extraction invocations. -/
structure AttachResult where
  texts : List String
  items : List PortfolioItem
  ocrCalls : Nat
deriving DecidableEq, Repr

/-- One attachment step of `BatchService._process_attachments`
(`app/services/batch_service.py`): no `extractionStatus` check; skip when
`filePath` is falsy or the file does not exist; otherwise read + extract
(one extraction invocation), appending the text when non-empty; an
exception is swallowed.  Returns (texts, extraction invocations). -/
def stepAttachB (env : BatchEnv) (a : Attachment) : List String × Nat :=
  let fp := a.filePath.getD ""
  if fp = "" then ([], 0)
  else if env.fileExists fp = false then ([], 0)
  else
    match env.extractText fp with
    | .raise => ([], 1)
    | .ret t => (if t ≠ "" then [t] else [], 1)

/-- `BatchService._process_attachments`: fold `stepAttachB` over every
attachment of every item, concatenating texts and summing extraction
invocations.  The portfolio is not mutated by this version. -/
def processAttachmentsB (env : BatchEnv) (p : Portfolio) : List String × Nat :=
  let steps := p.allAttachments.map (stepAttachB env)
  ((steps.map Prod.fst).flatten, (steps.map Prod.snd).sum)

/-- One attachment step of `PortfolioProcessor._process_attachments`
(`app/services/portfolio_processor.py`): an attachment whose
`extractionStatus` is `completed` is skipped unchanged; a falsy `filePath`
is skipped unchanged; a missing file sets `extractionStatus = failed`
without extraction; otherwise read + extract (one invocation): an
exception sets `failed`, success sets `completed` and appends the text
when non-empty.  Returns (texts, updated attachment, invocations). -/
def stepAttachP (env : BatchEnv) (a : Attachment) : List String × Attachment × Nat :=
  if a.extractionStatus = some .completed then ([], a, 0)
  else
    let fp := a.filePath.getD ""
    if fp = "" then ([], a, 0)
    else if env.fileExists fp = false then ([], { a with extractionStatus := some .failed }, 0)
    else
      match env.extractText fp with
      | .raise => ([], { a with extractionStatus := some .failed }, 1)
      | .ret t =>
        if t ≠ "" then ([t], { a with extractionStatus := some .completed }, 1)
        else ([], { a with extractionStatus := some .completed }, 1)

/-- `PortfolioProcessor._process_attachments`: fold `stepAttachP` over the
attachments of every item, collecting texts, rebuilding each item with its
updated attachments, and summing extraction invocations. -/
def processAttachmentsP (env : BatchEnv) (p : Portfolio) : AttachResult :=
  let perItem := p.portfolioItems.map (fun it =>
    let steps := it.attachments.map (stepAttachP env)
    ((steps.map (fun s => s.1)).flatten,
      { it with attachments := steps.map (fun s => s.2.1) },
      (steps.map (fun s => s.2.2)).sum))
  ⟨(perItem.map (fun s => s.1)).flatten,
    perItem.map (fun s => s.2.1),
    (perItem.map (fun s => s.2.2)).sum⟩

/-- Observable outcome of processing one portfolio: the returned `Result`
(`Ok portfolio_id` or `Err`), and the numbers of extraction calls,
embedding calls, repository update calls and `mark_as_processed` calls. -/
structure ProcTrace where
  result : PyResult String
  ocrCalls : Nat
  embedCalls : Nat
  updateCalls : Nat
  markCalls : Nat
deriving DecidableEq, Repr

/-- `BatchService.process_single_portfolio`
(`app/services/batch_service.py`): collect texts, process attachments,
join; an empty searchable text returns `Err(InvalidDataError)`; otherwise
embed (an `Err` from the embedding is propagated unchanged); then
`update_embeddings`, whose `False` means `Err(NetworkError)` and whose
raised exception is caught by the outermost handler and converted to
`Err(NetworkError)` as well. -/
def processSinglePortfolio (env : BatchEnv) (p : Portfolio) : ProcTrace :=
  let texts := collectTextsB p
  let att := processAttachmentsB env p
  let st := createSearchableText (texts ++ att.1)
  if st = "" then ⟨.err .invalidData, att.2, 0, 0, 0⟩
  else
    match env.embedPassage st with
    | .err k => ⟨.err k, att.2, 1, 0, 0⟩
    | .ok _ =>
      match env.updateEmbeddings p.id with
      | .raise => ⟨.err .network, att.2, 1, 1, 0⟩
      | .ret true => ⟨.ok p.id, att.2, 1, 1, 0⟩
      | .ret false => ⟨.err .network, att.2, 1, 1, 0⟩

/-- `PortfolioProcessor.process` (`app/services/portfolio_processor.py`):
same pipeline but an empty searchable text calls `mark_as_processed` and
returns `Ok(portfolio_id)`; `update_embeddings_and_status` replaces
`update_embeddings`; and the outermost handler converts a raised exception
to `Err(SystemError)`. -/
def processPortfolioP (env : BatchEnv) (p : Portfolio) : ProcTrace :=
  let texts := collectTextsP p
  let att := processAttachmentsP env p
  let st := createSearchableText (texts ++ att.texts)
  if st = "" then
    match env.markAsProcessed p.id with
    | .raise => ⟨.err .system, att.ocrCalls, 0, 0, 1⟩
    | .ret _ => ⟨.ok p.id, att.ocrCalls, 0, 0, 1⟩
  else
    match env.embedPassage st with
    | .err k => ⟨.err k, att.ocrCalls, 1, 0, 0⟩
    | .ok _ =>
      match env.updateEmbeddingsAndStatus p.id with
      | .raise => ⟨.err .system, att.ocrCalls, 1, 1, 0⟩
      | .ret true => ⟨.ok p.id, att.ocrCalls, 1, 1, 0⟩
      | .ret false => ⟨.err .network, att.ocrCalls, 1, 1, 0⟩

/-- `PortfolioRepository.find_needing_embedding`
(`app/repositories/portfolio_repository.py`): the MongoDB query is
`{"processingStatus.needsEmbedding": True}`, i.e. a filter on the
`needsEmbedding` flag alone, applied to the stored collection. -/
def findNeedingEmbedding (db : List Portfolio) : List Portfolio :=
  db.filter (fun p => p.needsEmbedding)

/-- Modelled from the spec: the selection predicate the specification
describes for a batch run — `needsEmbedding == true` OR any attachment has
`extractionStatus == failed`.  Stated only for comparison with
`findNeedingEmbedding`, which embeds the repository source. -/
def specSelectsForBatch (p : Portfolio) : Bool :=
  p.needsEmbedding || p.allAttachments.any (fun a => a.extractionStatus = some .failed)

/-- The schema of `BatchResult` (`app/schemas/batch.py`). -/
structure BatchResult where
  total : Nat
  success : Nat
  failed : Nat
  failedIds : List String
  processingTime : String
deriving DecidableEq, Repr

/-- Accumulator of the per-portfolio loop in
`BatchService.process_daily_batch`: the `success_count`, `failed_count`,
`failed_ids` and `retry_ids` variables, plus observable call counts. -/
structure BatchAcc where
  success : Nat
  failed : Nat
  failedIds : List String
  retryIds : List String
  embedCalls : Nat
  ocrCalls : Nat
deriving DecidableEq, Repr

/-- One iteration of the loop in `BatchService.process_daily_batch`
(`app/services/batch_service.py`): call `process_single_portfolio`
directly and classify its `Result` — `Ok` increments `success_count`; a
retryable `Err` increments `failed_count` and appends the id to
`retry_ids`; any other `Err` increments `failed_count` and appends the id
to `failed_ids`. -/
def batchStep (env : BatchEnv) (acc : BatchAcc) (p : Portfolio) : BatchAcc :=
  let tr := processSinglePortfolio env p
  let acc2 := { acc with
    embedCalls := acc.embedCalls + tr.embedCalls,
    ocrCalls := acc.ocrCalls + tr.ocrCalls }
  match tr.result with
  | .ok _ => { acc2 with success := acc2.success + 1 }
  | .err k =>
    if k.isRetryable then
      { acc2 with failed := acc2.failed + 1, retryIds := acc2.retryIds ++ [p.id] }
    else
      { acc2 with failed := acc2.failed + 1, failedIds := acc2.failedIds ++ [p.id] }

/-- Observable outcome of one batch run: the returned `BatchResult`, the
`retry_ids` list the service keeps only for logging, and the total
numbers of embedding and extraction calls made. -/
structure BatchTrace where
  result : BatchResult
  retryIds : List String
  embedCalls : Nat
  ocrCalls : Nat
deriving DecidableEq, Repr

/-- `BatchService.process_daily_batch`
(`app/services/batch_service.py`): select with
`find_needing_embedding`; zero matches returns the all-zero summary with
`processingTime = "0s"`; otherwise loop `batchStep` over the selection and
assemble the `BatchResult` (elapsed-time formatting is abstracted as the
`fmtTime` argument). -/
def processDailyBatch (env : BatchEnv) (fmtTime : String) (db : List Portfolio) :
    BatchTrace :=
  let portfolios := findNeedingEmbedding db
  if portfolios.length = 0 then ⟨⟨0, 0, 0, [], "0s"⟩, [], 0, 0⟩
  else
    let acc := portfolios.foldl (batchStep env) ⟨0, 0, [], [], 0, 0⟩
    ⟨⟨portfolios.length, acc.success, acc.failed, acc.failedIds, fmtTime⟩,
      acc.retryIds, acc.embedCalls, acc.ocrCalls⟩

/-- A candidate document as it flows through the search pipeline: the
`userId` and `embeddings.searchableText` fields the analysis stage reads. -/
structure Cand where
  userId : String
  searchableText : String
deriving DecidableEq, Repr

/-- The JSON object parsed from the LLM's match analysis
(`{"matchScore": ..., "matchReason": ..., "keywords": [...]}`); each key
may be absent.  `matchScore` is modelled as an optional rational. -/
structure AnalysisOut where
  matchScore : Option ℚ
  matchReason : Option String
  keywords : Option (List String)
deriving DecidableEq, Repr

/-- Outcome of the raw LLM chat call plus JSON parsing inside
`AnalysisService.analyze_candidate_match`: a reply whose parsing succeeds
(`content (some r)`) or fails (`content none`, the `ValueError` path), or
one of the exception classes the method catches (`RateLimitError`,
`AuthenticationError`, `OpenAIError`, anything else). -/
inductive LLMOutcome
  | content (parsed : Option AnalysisOut)
  | rateLimited
  | authFailed
  | apiError
  | otherError
deriving DecidableEq, Repr

/-- `AnalysisService.analyze_candidate_match`
(`app/services/analysis_service.py`): parse failure is
`Err(InvalidDataError)`; a parsed reply is validated with
`match_score = result.get('matchScore', -1)` and
`if not (0.0 <= match_score <= 1.0): return Err(InvalidDataError(...))`,
else `Ok(result)`; the caught exception classes map to
`Err(RateLimitError)`, `Err(AuthenticationError)` and `Err(NetworkError)`
(both for `OpenAIError` and for unexpected exceptions). -/
def analyzeCandidateMatch : LLMOutcome → PyResult AnalysisOut
  | .content none => .err .invalidData
  | .content (some r) =>
    if 0 ≤ r.matchScore.getD (-1) ∧ r.matchScore.getD (-1) ≤ 1 then .ok r
    else .err .invalidData
  | .rateLimited => .err .rateLimit
  | .authFailed => .err .authentication
  | .apiError => .err .network
  | .otherError => .err .network

/-- One attempt of the per-candidate analysis call inside
`SearchService._analyze_single_candidate_with_retry`: the awaited call
returns a `Result`, exceeds the `asyncio.wait_for` timeout, or raises. -/
inductive AnalysisStep
  | res (r : PyResult AnalysisOut)
  | timeout
  | raise
deriving DecidableEq, Repr

/-- `CandidateResult` (`app/schemas/response.py`). -/
structure CandidateResult where
  userId : String
  matchScore : ℚ
  matchReason : String
  keywords : List String
deriving DecidableEq, Repr

/-- `SearchResponse` (`app/schemas/response.py`). -/
structure SearchResponse where
  status : String
  candidates : List CandidateResult
  searchTime : String
  totalResults : Nat
deriving DecidableEq, Repr

/-- Oracle environment for the search pipeline: query embedding
(`embed_query`, which catches its own exceptions and returns a `Result`),
vector search (may raise), reranking (may raise), the per-candidate
analysis oracle indexed by attempt number, and the configuration values
the service reads from `settings` (`RATE_LIMIT_MAX_RETRIES`,
`ANALYSIS_BATCH_SIZE`; the elapsed-time string is abstracted). -/
structure SearchEnv where
  embedQuery : String → PyResult (List Int)
  vectorSearch : List Int → CallOutcome (List Cand)
  rerank : List Cand → CallOutcome (List Cand)
  analyze : Cand → Nat → AnalysisStep
  rlMaxRetries : Nat
  batchSize : Nat
  fmtTime : String

/-- The `for attempt in range(settings.RATE_LIMIT_MAX_RETRIES)` loop of
`SearchService._analyze_single_candidate_with_retry`
(`app/services/search_service.py`), recursing on remaining iterations: a
timeout or an unexpected exception discards the candidate (`None`); an
`Ok` builds the `CandidateResult` with defaults
(`matchScore` 0.0, `matchReason` 'N/A', `keywords` []); an
`Err(RateLimitError)` retries while attempts remain, else `None`; any
other `Err` is `None`; falling out of the loop is `None`. -/
def analyzeRetryLoop (env : SearchEnv) (c : Cand) : Nat → Nat → Option CandidateResult
  | 0, _ => none
  | remaining + 1, attempt =>
    match env.analyze c attempt with
    | .timeout => none
    | .raise => none
    | .res (.ok an) =>
      some ⟨c.userId, an.matchScore.getD 0, an.matchReason.getD "N/A", an.keywords.getD []⟩
    | .res (.err k) =>
      if k = .rateLimit ∧ attempt < env.rlMaxRetries - 1 then
        analyzeRetryLoop env c remaining (attempt + 1)
      else none

/-- `_analyze_single_candidate_with_retry`: a candidate with falsy
`embeddings.searchableText` is skipped (`None`); otherwise the retry loop
runs with `RATE_LIMIT_MAX_RETRIES` iterations.  (The semaphore wrapper
adds no behaviour to a single candidate's outcome.) -/
def analyzeOne (env : SearchEnv) (c : Cand) : Option CandidateResult :=
  if c.searchableText = "" then none
  else analyzeRetryLoop env c env.rlMaxRetries 0

/-- `SearchService._analyze_batch`: gather the per-candidate analyses of
one batch and keep the non-`None` results in candidate order. -/
def analyzeBatch (env : SearchEnv) (l : List Cand) : List CandidateResult :=
  l.filterMap (analyzeOne env)

/-- The `for batch_idx in range(0, total_candidates, batch_size)` loop of
`SearchService._analyze_candidates`, with the iteration count bounded by
the candidate-list length as fuel: process `batchSize`-sized slices in
order and concatenate the surviving candidates.  Since every reachable
call has `batchSize ≥ 1` (a zero step makes `range` raise, which the
orchestrator maps to `Err(SystemError)` before any analysis), each slice
consumes at least one candidate and length-many iterations always
suffice. -/
def analyzeCandidatesGo (env : SearchEnv) : Nat → List Cand → List CandidateResult
  | 0, _ => []
  | _ + 1, [] => []
  | fuel + 1, c :: cs =>
    analyzeBatch env ((c :: cs).take env.batchSize) ++
      analyzeCandidatesGo env fuel ((c :: cs).drop env.batchSize)

/-- `SearchService._analyze_candidates`: the chunked loop started with
fuel equal to the number of candidates. -/
def analyzeCandidates (env : SearchEnv) (l : List Cand) : List CandidateResult :=
  analyzeCandidatesGo env l.length l

/-- Observable outcome of `SearchService.search_portfolios`: the returned
`Result`, whether the reranker stage was invoked, and how many candidates
entered the analysis fan-out. -/
structure SearchTrace where
  result : PyResult SearchResponse
  rerankCalls : Nat
  analyzedCandidates : Nat
deriving DecidableEq, Repr

/-- `SearchService.search_portfolios` (`app/services/search_service.py`):
an `Err` from query embedding is returned as-is; a raising vector search
becomes `Err(NetworkError)`; an empty vector-search result short-circuits
to a successful empty response before the reranker; a raising reranker is
caught by the outermost handler as `Err(SystemError)`; an empty reranked
list also short-circuits to a successful empty response; otherwise the
analysis fan-out runs and the surviving candidates, in rerank order, fill
the response (`totalResults = len(final_candidates)`). -/
def searchPortfolios (env : SearchEnv) (q : String) : SearchTrace :=
  match env.embedQuery q with
  | .err k => ⟨.err k, 0, 0⟩
  | .ok v =>
    match env.vectorSearch v with
    | .raise => ⟨.err .network, 0, 0⟩
    | .ret srs =>
      if srs = [] then ⟨.ok ⟨"success", [], env.fmtTime, 0⟩, 0, 0⟩
      else
        match env.rerank srs with
        | .raise => ⟨.err .system, 1, 0⟩
        | .ret rr =>
          if rr = [] then ⟨.ok ⟨"success", [], env.fmtTime, 0⟩, 1, 0⟩
          else if env.batchSize = 0 then ⟨.err .system, 1, 0⟩
          else
            let final := analyzeCandidates env rr
            ⟨.ok ⟨"success", final, env.fmtTime, final.length⟩, 1, rr.length⟩

/-- A `basicInfo` sub-document with every field absent. -/
def emptyBasicInfo : BasicInfo := ⟨none, none, none, none, [], [], []⟩

/-- A batch environment whose collaborators all answer benignly: no file
exists, extraction returns empty text, embedding fails with a retryable
`NetworkError`, and every repository update succeeds. -/
def envC1 : BatchEnv :=
  ⟨fun _ => false, fun _ => .ret "", fun _ => .err .network,
    fun _ => .ret true, fun _ => .ret true, fun _ => .ret true⟩

/-- A portfolio with one truthy text field and no attachments, selected
for the batch (`needsEmbedding = true`). -/
def pC1 : Portfolio := ⟨"p1", { emptyBasicInfo with name := some "김철수" }, [], true⟩

/-- A batch environment where embedding and every update succeed. -/
def envC2 : BatchEnv :=
  ⟨fun _ => false, fun _ => .ret "", fun _ => .ok [1],
    fun _ => .ret true, fun _ => .ret true, fun _ => .ret true⟩

/-- A portfolio with no text fields and no attachments: its searchable
text is empty. -/
def pC2 : Portfolio := ⟨"p2", emptyBasicInfo, [], true⟩

/-- A portfolio that is NOT flagged `needsEmbedding` but has an attachment
whose `extractionStatus` is `failed`. -/
def pC3 : Portfolio :=
  ⟨"p3", emptyBasicInfo, [⟨none, none, [⟨some "file-1.pdf", some .failed⟩]⟩], false⟩

/-- A batch environment whose embedding succeeds but whose repository
update calls raise an unexpected exception. -/
def envC5 : BatchEnv :=
  ⟨fun _ => false, fun _ => .ret "", fun _ => .ok [1],
    fun _ => .raise, fun _ => .raise, fun _ => .ret true⟩

/-- A portfolio with one truthy text field and no attachments. -/
def pC5 : Portfolio := ⟨"p5", { emptyBasicInfo with name := some "이영희" }, [], true⟩

/-- A batch environment where every file exists and extraction returns a
fixed non-empty text. -/
def envC6 : BatchEnv :=
  ⟨fun _ => true, fun _ => .ret "첨부 본문", fun _ => .ok [1],
    fun _ => .ret true, fun _ => .ret true, fun _ => .ret true⟩

/-- A portfolio whose single attachment is already `completed`. -/
def pC6 : Portfolio :=
  ⟨"p6", emptyBasicInfo, [⟨some "제목글", none, [⟨some "a.pdf", some .completed⟩]⟩], true⟩

/-- A candidate with non-empty searchable text. -/
def candOk : Cand := ⟨"user-1", "후보 텍스트"⟩

/-- A second candidate with non-empty searchable text. -/
def candT : Cand := ⟨"user-2", "다른 텍스트"⟩

/-- A parsed analysis output with an in-range match score. -/
def outGood : AnalysisOut := ⟨some 1, some "근거 있음", some ["키워드"]⟩

/-- A parsed analysis output whose match score exceeds 1. -/
def outBad : AnalysisOut := ⟨some 2, some "근거", some ["키워드"]⟩

/-- A search environment whose vector-search stage returns no candidates. -/
def senvC7 : SearchEnv :=
  ⟨fun _ => .ok [2], fun _ => .ret [], fun l => .ret l,
    fun _ _ => .timeout, 3, 5, "0.10s"⟩

/-- A search environment with two candidates: analysis of `candT` always
times out, analysis of any other candidate succeeds with `outGood`. -/
def senvC8 : SearchEnv :=
  ⟨fun _ => .ok [1], fun _ => .ret [candOk, candT], fun l => .ret l,
    fun c _ => if c = candT then .timeout else .res (.ok outGood), 2, 5, "0.20s"⟩

/-- A search environment whose analysis oracle always routes through
`analyzeCandidateMatch` on a fixed well-formed LLM reply. -/
def senvC9 : SearchEnv :=
  ⟨fun _ => .ok [1], fun _ => .ret [candOk], fun l => .ret l,
    fun _ _ => .res (analyzeCandidateMatch (.content (some outGood))), 2, 5, "0.30s"⟩

/-- A search environment whose reranker raises. -/
def senvC5 : SearchEnv :=
  ⟨fun _ => .ok [1], fun _ => .ret [candOk], fun _ => .raise,
    fun _ _ => .timeout, 2, 5, "0.40s"⟩

/-- Helper invariant for `RetryExecutor.runLoop`: once `last_error_result`
is set (or at least one iteration remains), the loop returns a non-`None`
result. -/
theorem RetryExecutor.runLoop_isSome {V : Type} (maxRetries : Nat) (d : ℚ)
    (task : Nat → TaskStep V) :
    ∀ (remaining attempt : Nat) (lastErr : Option (PyResult V))
      (sleeps : List ℚ) (calls : Nat),
      1 ≤ remaining ∨ lastErr.isSome →
      (RetryExecutor.runLoop maxRetries d task remaining attempt lastErr sleeps calls).result.isSome := by
  intro remaining
  induction remaining with
  | zero =>
    intro attempt lastErr sleeps calls h
    rcases h with h | h
    · omega
    · simpa [RetryExecutor.runLoop] using h
  | succ n ih =>
    intro attempt lastErr sleeps calls _
    cases htask : task attempt with
    | raise => simp [RetryExecutor.runLoop, htask]
    | ret r =>
      cases r with
      | ok v => simp [RetryExecutor.runLoop, htask]
      | err k =>
        simp only [RetryExecutor.runLoop, htask]
        by_cases hc : k.isRetryable = true ∧ attempt < maxRetries - 1
        · rw [if_pos hc]
          exact ih (attempt + 1) (some (.err k)) (sleeps ++ [d * 2 ^ attempt]) (calls + 1)
            (Or.inr rfl)
        · rw [if_neg hc]
          simp

/-- Helper for `RetryExecutor.runLoop`: if the task fails retryably on
attempts `attempt, ..., attempt + k - 1` and succeeds on attempt
`attempt + k`, with at least `k + 1` iterations remaining and the loop
never on its final overall attempt before success, the loop returns the
success, appends the `k` backoff sleeps, and makes `k + 1` calls. -/
theorem RetryExecutor.runLoop_ok {V : Type} (maxRetries : Nat) (d : ℚ)
    (task : Nat → TaskStep V) (v : V) :
    ∀ (k attempt remaining : Nat) (lastErr : Option (PyResult V))
      (sleeps : List ℚ) (calls : Nat),
      attempt + remaining = maxRetries →
      k + 1 ≤ remaining →
      (∀ i, i < k → ∃ e, task (attempt + i) = .ret (.err e) ∧ e.isRetryable = true) →
      task (attempt + k) = .ret (.ok v) →
      RetryExecutor.runLoop maxRetries d task remaining attempt lastErr sleeps calls =
        ⟨some (.ok v), sleeps ++ (List.range k).map (fun i => d * 2 ^ (attempt + i)),
          calls + k + 1⟩ := by
  intro k
  induction k with
  | zero =>
    intro attempt remaining lastErr sleeps calls hinv hrem hf hs
    cases remaining with
    | zero => omega
    | succ r =>
      simp only [Nat.add_zero] at hs
      simp [RetryExecutor.runLoop, hs]
  | succ n ih =>
    intro attempt remaining lastErr sleeps calls hinv hrem hf hs
    cases remaining with
    | zero => omega
    | succ r =>
      obtain ⟨e, he, heRetry⟩ := hf 0 (Nat.succ_pos n)
      rw [Nat.add_zero] at he
      simp only [RetryExecutor.runLoop, he]
      have hattempt : attempt < maxRetries - 1 := by omega
      rw [if_pos ⟨heRetry, hattempt⟩]
      have step := ih (attempt + 1) r (some (.err e)) (sleeps ++ [d * 2 ^ attempt])
        (calls + 1) (by omega) (by omega)
        (fun i hi => by
          have := hf (i + 1) (by omega)
          simpa [Nat.add_assoc, Nat.add_comm 1 i] using this)
        (by simpa [Nat.add_assoc, Nat.add_comm 1 n] using hs)
      rw [step]
      have hsleeps :
          (sleeps ++ [d * 2 ^ attempt]) ++
              (List.range n).map (fun i => d * 2 ^ (attempt + 1 + i)) =
            sleeps ++ (List.range (n + 1)).map (fun i => d * 2 ^ (attempt + i)) := by
        rw [List.append_assoc, List.range_succ_eq_map]
        simp only [List.map_cons, List.map_map, Nat.add_zero, List.singleton_append]
        congr 1
        congr 1
        exact List.map_congr_left
          (fun i _ => by simp [Function.comp, Nat.add_assoc, Nat.add_comm 1 i])
      rw [hsleeps]
      congr 1
      omega

/-- C4: For every `max_retries ≥ 1`, `initial_delay`, and task: if the
task returns retryable failures on its first `k` calls (`k < max_retries`)
and `Ok` on call `k + 1`, `RetryExecutor.run` returns that success and
sleeps `initial_delay * 2 ^ i` after failed attempt `i` for
`i = 0, ..., k - 1`; and if the task always returns one fixed
non-retryable failure, `run` returns that failure after exactly one call
with no sleep. -/
theorem retry_executor_backoff {V : Type} (m k : Nat) (d : ℚ)
    (task : Nat → TaskStep V) (v : V) (e : ErrKind) :
    (k < m →
      (∀ i, i < k → ∃ e2, task i = .ret (.err e2) ∧ e2.isRetryable = true) →
      task k = .ret (.ok v) →
      RetryExecutor.run m d task =
        ⟨some (.ok v), (List.range k).map (fun i => d * 2 ^ i), k + 1⟩) ∧
    (1 ≤ m → e.isRetryable = false → (∀ n, task n = .ret (.err e)) →
      RetryExecutor.run m d task = ⟨some (.err e), [], 1⟩) := by
  constructor
  · intro hkm hf hs
    have := RetryExecutor.runLoop_ok m d task v k 0 m none [] 0 (by omega) (by omega)
      (fun i hi => by simpa using hf i hi) (by simpa using hs)
    simpa [RetryExecutor.run] using this
  · intro hm hperm hall
    cases m with
    | zero => omega
    | succ n =>
      simp [RetryExecutor.run, RetryExecutor.runLoop, hall 0, hperm]

/-- Witness for `retry_executor_backoff`: a task over `Nat` values failing
retryably twice then succeeding, run with `max_retries = 4` and
`initial_delay = 1`, returns the success after sleeps `[1, 2]`; and a task
always failing with `InvalidDataError`, run with `max_retries = 3`,
returns that failure after one call. -/
theorem retry_executor_backoff_witness :
    RetryExecutor.run 4 1
        (fun n => if n < 2 then TaskStep.ret (.err .network) else TaskStep.ret (.ok 7)) =
      ⟨some (.ok 7), [1, 2], 3⟩ ∧
    RetryExecutor.run 3 1 (fun _ => TaskStep.ret (PyResult.err (V := Nat) .invalidData)) =
      ⟨some (.err .invalidData), [], 1⟩ := by
  constructor
  · have := (retry_executor_backoff (V := Nat) 4 2 1
      (fun n => if n < 2 then TaskStep.ret (.err .network) else TaskStep.ret (.ok 7)) 7
      .invalidData).1 (by decide)
      (fun i hi => ⟨.network, by interval_cases i <;> decide, by decide⟩) (by decide)
    rw [this]
    norm_num [List.range_succ]
  · have := (retry_executor_backoff (V := Nat) 3 0 1
      (fun _ => TaskStep.ret (.err .invalidData)) 0 .invalidData).2 (by decide) (by decide)
      (fun _ => rfl)
    rw [this]

/-- C10: `RetryExecutor.run` returns a genuine `Ok`/`Err` `Result` for
every `max_retries ≥ 1`; but an executor constructed with
`max_retries = 0` never runs the attempt loop and `run` returns `None`,
which is neither variant of `Result`. -/
theorem retry_executor_zero_retries_none {V : Type} (m : Nat) (d : ℚ)
    (task : Nat → TaskStep V) :
    (RetryExecutor.run 0 d task).result = none ∧
    (1 ≤ m → ∃ r, (RetryExecutor.run m d task).result = some r) := by
  constructor
  · rfl
  · intro hm
    have := RetryExecutor.runLoop_isSome m d task m 0 none [] 0 (Or.inl hm)
    exact Option.isSome_iff_exists.mp this

/-- Witness for `retry_executor_zero_retries_none`: with `max_retries = 1`
and a task returning `Ok 5`, `run` returns a `some` result (while
`max_retries = 0` gives `none`). -/
theorem retry_executor_zero_retries_none_witness :
    (RetryExecutor.run 0 1 (fun _ => TaskStep.ret (PyResult.ok 5))).result = none ∧
    ∃ r, (RetryExecutor.run 1 1 (fun _ => TaskStep.ret (PyResult.ok 5))).result = some r :=
  ⟨(retry_executor_zero_retries_none 1 1 (fun _ => TaskStep.ret (PyResult.ok 5))).1,
    (retry_executor_zero_retries_none 1 1 (fun _ => TaskStep.ret (PyResult.ok 5))).2
      (by decide)⟩

/-- Characterization of the per-portfolio loop of
`BatchService.process_daily_batch`: folding `batchStep` counts `Ok`
results in `success`, every `Err` in `failed`, puts ids of non-retryable
failures in `failed_ids` and ids of retryable failures in `retry_ids`
(each in discovery order), and makes the calls of one
`process_single_portfolio` invocation per portfolio. -/
theorem batch_foldl_char (env : BatchEnv) :
    ∀ (l : List Portfolio) (acc : BatchAcc),
      l.foldl (batchStep env) acc =
        ⟨acc.success + l.countP (fun p => (processSinglePortfolio env p).result.isOk),
          acc.failed + l.countP (fun p => !(processSinglePortfolio env p).result.isOk),
          acc.failedIds ++
            (l.filter (fun p => (processSinglePortfolio env p).result.isPermanentErr)).map Portfolio.id,
          acc.retryIds ++
            (l.filter (fun p => (processSinglePortfolio env p).result.isRetryableErr)).map Portfolio.id,
          acc.embedCalls + (l.map (fun p => (processSinglePortfolio env p).embedCalls)).sum,
          acc.ocrCalls + (l.map (fun p => (processSinglePortfolio env p).ocrCalls)).sum⟩ := by
  intro l
  induction l with
  | nil => intro acc; simp
  | cons p l ih =>
    intro acc
    rw [List.foldl_cons, ih]
    rcases hres : (processSinglePortfolio env p).result with v | k
    · simp [batchStep, hres, List.countP_cons, List.filter_cons, PyResult.isOk,
        PyResult.isPermanentErr, PyResult.isRetryableErr, Nat.add_assoc, Nat.add_comm 1]
    · by_cases hk : k.isRetryable = true
      · simp [batchStep, hres, hk, List.countP_cons, List.filter_cons, PyResult.isOk,
          PyResult.isPermanentErr, PyResult.isRetryableErr, List.append_assoc,
          Nat.add_assoc, Nat.add_comm 1]
      · simp [batchStep, hres, hk, List.countP_cons, List.filter_cons, PyResult.isOk,
          PyResult.isPermanentErr, PyResult.isRetryableErr, List.append_assoc,
          Nat.add_assoc, Nat.add_comm 1]

/-- C1 (amended): each selected portfolio is processed by a single direct
`process_single_portfolio` call (no `RetryExecutor` wrapping — exactly one
embedding attempt per item reaching the embedding stage); the returned
summary counts every item whose final `Result` is a failure in `failed`,
but `failedIds` records exactly the ids whose failure is non-retryable, in
discovery order; ids of retryable failures go to the separate `retry_ids`
list that is not part of the summary. -/
theorem batch_summary_accounting (env : BatchEnv) (fmt : String) (db : List Portfolio) :
    (processDailyBatch env fmt db).result.total = (findNeedingEmbedding db).length ∧
    (processDailyBatch env fmt db).result.success =
      (findNeedingEmbedding db).countP
        (fun p => (processSinglePortfolio env p).result.isOk) ∧
    (processDailyBatch env fmt db).result.failed =
      (findNeedingEmbedding db).countP
        (fun p => !(processSinglePortfolio env p).result.isOk) ∧
    (processDailyBatch env fmt db).result.failedIds =
      ((findNeedingEmbedding db).filter
        (fun p => (processSinglePortfolio env p).result.isPermanentErr)).map Portfolio.id ∧
    (processDailyBatch env fmt db).retryIds =
      ((findNeedingEmbedding db).filter
        (fun p => (processSinglePortfolio env p).result.isRetryableErr)).map Portfolio.id ∧
    (processDailyBatch env fmt db).embedCalls =
      ((findNeedingEmbedding db).map
        (fun p => (processSinglePortfolio env p).embedCalls)).sum := by
  by_cases h : (findNeedingEmbedding db).length = 0
  · have hnil : findNeedingEmbedding db = [] := List.length_eq_zero.mp h
    simp [processDailyBatch, hnil]
  · simp only [processDailyBatch, if_neg h, batch_foldl_char]
    simp

/-- C1 (counterexample): one selected portfolio whose processing ends in a
retryable `NetworkError`: the summary counts it in `failed` yet
`failedIds` is empty (the id sits only in the logging-only retry list);
moreover the item's processing makes a single embedding attempt, while the
`RetryExecutor.run` wrapping the claim describes (the service's
`_max_retries = 3`, `initial_delay = 1.0`) would call such a task three
times. -/
theorem batch_summary_counterexample :
    (processDailyBatch envC1 "1s" [pC1]).result.failed = 1 ∧
    (processDailyBatch envC1 "1s" [pC1]).result.failedIds = [] ∧
    (processDailyBatch envC1 "1s" [pC1]).retryIds = ["p1"] ∧
    (processSinglePortfolio envC1 pC1).result = .err .network ∧
    ErrKind.network.isRetryable = true ∧
    (processDailyBatch envC1 "1s" [pC1]).embedCalls = 1 ∧
    (RetryExecutor.run 3 1 (fun _ => TaskStep.ret (PyResult.err (V := String) .network))).calls = 3 := by
  decide

/-- C2 (amended): on an item whose collected and extracted text joins to
the empty string, the per-item processing used by the batch
(`BatchService.process_single_portfolio`) returns
`Err(InvalidDataError)` with no embedding and no update call; the
spec-described behaviour lives only in the unused
`PortfolioProcessor.process`, which marks the item processed
(one `mark_as_processed` call) and returns `Ok(id)` without an embedding
call. -/
theorem empty_text_terminal_state (env : BatchEnv) (p : Portfolio) (b : Bool) :
    (createSearchableText (collectTextsB p ++ (processAttachmentsB env p).1) = "" →
      processSinglePortfolio env p =
        ⟨.err .invalidData, (processAttachmentsB env p).2, 0, 0, 0⟩) ∧
    (createSearchableText (collectTextsP p ++ (processAttachmentsP env p).texts) = "" →
      env.markAsProcessed p.id = .ret b →
      processPortfolioP env p =
        ⟨.ok p.id, (processAttachmentsP env p).ocrCalls, 0, 0, 1⟩) := by
  constructor
  · intro h
    simp [processSinglePortfolio, h]
  · intro h hm
    simp [processPortfolioP, h, hm]

/-- Witness for `empty_text_terminal_state`: a portfolio with no text
fields and no attachments, in an environment whose `mark_as_processed`
succeeds. -/
theorem empty_text_terminal_state_witness :
    processSinglePortfolio envC2 pC2 = ⟨.err .invalidData, 0, 0, 0, 0⟩ ∧
    processPortfolioP envC2 pC2 = ⟨.ok "p2", 0, 0, 0, 1⟩ := by
  refine ⟨?_, ?_⟩
  · have h := (empty_text_terminal_state envC2 pC2 true).1 (by decide)
    rw [h]
    decide
  · have h := (empty_text_terminal_state envC2 pC2 true).2 (by decide) (by decide)
    rw [h]
    decide

/-- C2 (counterexample): the batch's per-item processing of an item with
zero extractable text returns `Err(InvalidDataError)` — not
`Success(id)` as claimed (no embedding call is made, but the empty item
is reported as a permanent failure). -/
theorem empty_text_counterexample :
    (processSinglePortfolio envC2 pC2).result = .err .invalidData ∧
    (processSinglePortfolio envC2 pC2).result.isOk = false ∧
    (processSinglePortfolio envC2 pC2).embedCalls = 0 := by
  decide

/-- C3 (amended): the batch selection
(`PortfolioRepository.find_needing_embedding`) returns exactly the stored
items whose `needsEmbedding` flag is true — attachment `extractionStatus`
plays no part in selection; zero matches is not an error and the batch
returns the all-zero summary. -/
theorem batch_selection_predicate (db : List Portfolio) (env : BatchEnv) (fmt : String) :
    (∀ p, p ∈ findNeedingEmbedding db ↔ p ∈ db ∧ p.needsEmbedding = true) ∧
    (findNeedingEmbedding db = [] →
      (processDailyBatch env fmt db).result = ⟨0, 0, 0, [], "0s"⟩) := by
  constructor
  · intro p
    simp [findNeedingEmbedding]
  · intro h
    simp [processDailyBatch, h]

/-- Witness for `batch_selection_predicate`: on an empty collection the
selection is empty and the batch returns the all-zero summary; on a
one-item collection the flagged item is selected. -/
theorem batch_selection_predicate_witness :
    (processDailyBatch envC2 "1s" []).result = ⟨0, 0, 0, [], "0s"⟩ ∧
    (pC2 ∈ findNeedingEmbedding [pC2] ↔ pC2 ∈ [pC2] ∧ pC2.needsEmbedding = true) :=
  ⟨(batch_selection_predicate [] envC2 "1s").2 rfl,
    (batch_selection_predicate [pC2] envC2 "1s").1 pC2⟩

/-- C3 (counterexample): a portfolio with `needsEmbedding = false` whose
only attachment has `extractionStatus = failed` satisfies the
specification's selection predicate but is not selected by
`find_needing_embedding`. -/
theorem batch_selection_counterexample :
    specSelectsForBatch pC3 = true ∧
    pC3.needsEmbedding = false ∧
    findNeedingEmbedding [pC3] = [] := by
  decide

/-- C5 (amended): a task raising inside `RetryExecutor.run` yields a
terminal `SystemError` failure after one call with no sleep (not
retried); the search orchestrator's outermost handler converts a raising
reranker into `Err(SystemError)`; `PortfolioProcessor.process` likewise
converts a raising update into `Err(SystemError)`; but
`BatchService.process_single_portfolio`, the per-item processing the
batch actually runs, converts an unexpected exception into a retryable
`Err(NetworkError)` instead of `SystemError`. -/
theorem unexpected_fault_conversion {V : Type} (m : Nat) (d : ℚ)
    (task : Nat → TaskStep V) (env : BatchEnv) (p : Portfolio)
    (senv : SearchEnv) (q : String) (v vec : List Int) (rs : List Cand) :
    (1 ≤ m → task 0 = .raise →
      RetryExecutor.run m d task = ⟨some (.err .system), [], 1⟩) ∧
    (senv.embedQuery q = .ok v → senv.vectorSearch v = .ret rs → rs ≠ [] →
      senv.rerank rs = .raise →
      (searchPortfolios senv q).result = .err .system) ∧
    (createSearchableText (collectTextsP p ++ (processAttachmentsP env p).texts) ≠ "" →
      env.embedPassage
          (createSearchableText (collectTextsP p ++ (processAttachmentsP env p).texts)) =
        .ok vec →
      env.updateEmbeddingsAndStatus p.id = .raise →
      (processPortfolioP env p).result = .err .system) ∧
    (createSearchableText (collectTextsB p ++ (processAttachmentsB env p).1) ≠ "" →
      env.embedPassage
          (createSearchableText (collectTextsB p ++ (processAttachmentsB env p).1)) =
        .ok vec →
      env.updateEmbeddings p.id = .raise →
      (processSinglePortfolio env p).result = .err .network) := by
  refine ⟨?_, ?_, ?_, ?_⟩
  · intro hm ht
    cases m with
    | zero => omega
    | succ n => simp [RetryExecutor.run, RetryExecutor.runLoop, ht]
  · intro he hv hrs hr
    simp [searchPortfolios, he, hv, hrs, hr]
  · intro hst he hu
    simp [processPortfolioP, hst, he, hu]
  · intro hst he hu
    simp [processSinglePortfolio, hst, he, hu]

/-- Witness for `unexpected_fault_conversion`: concrete raising tasks and
environments for each of the four conversion sites. -/
theorem unexpected_fault_conversion_witness :
    RetryExecutor.run 2 1 (fun _ => TaskStep.raise (V := Nat)) =
      ⟨some (.err .system), [], 1⟩ ∧
    (searchPortfolios senvC5 "백엔드 개발자").result = .err .system ∧
    (processPortfolioP envC5 pC5).result = .err .system ∧
    (processSinglePortfolio envC5 pC5).result = .err .network := by
  have h := unexpected_fault_conversion (V := Nat) 2 1 (fun _ => TaskStep.raise)
    envC5 pC5 senvC5 "백엔드 개발자" [1] [1] [candOk]
  exact ⟨h.1 (by decide) rfl,
    h.2.1 rfl rfl (by decide) rfl,
    h.2.2.1 (by decide) (by decide) rfl,
    h.2.2.2 (by decide) (by decide) rfl⟩

/-- C5 (counterexample): with a repository update that raises an
unexpected exception, the batch's per-item processing returns
`Err(NetworkError)` — a retryable kind — not the `SystemResource` failure
the claim requires of every orchestrator's outermost handler. -/
theorem unexpected_fault_counterexample :
    envC5.updateEmbeddings "p5" = .raise ∧
    (processSinglePortfolio envC5 pC5).result = .err .network ∧
    (PyResult.err (V := String) .network) ≠ .err .system ∧
    ErrKind.network.isRetryable = true := by
  decide

/-- Helper: `stepAttachP` skips an attachment whose `extractionStatus` is
`completed`, returning it unchanged with no extraction call. -/
theorem stepAttachP_completed (env : BatchEnv) (a : Attachment)
    (h : a.extractionStatus = some .completed) :
    stepAttachP env a = ([], a, 0) := by
  simp [stepAttachP, h]

/-- Helper: texts of a skip-everything attachment pass flatten to nothing. -/
theorem tripleFst_flatten {α : Type} (l : List α) :
    ((l.map (fun a => (([] : List String), a, (0 : Nat)))).map (fun s => s.1)).flatten = [] := by
  induction l with
  | nil => rfl
  | cons a l ih => simpa using ih

/-- Helper: the middle projection of a skip-everything attachment pass is
the identity. -/
theorem tripleSnd_map {α : Type} (l : List α) :
    (l.map (fun a => (([] : List String), a, (0 : Nat)))).map (fun s => s.2.1) = l := by
  induction l with
  | nil => rfl
  | cons a l ih => simpa using ih

/-- Helper: a skip-everything attachment pass makes zero extraction calls. -/
theorem tripleThd_sum {α : Type} (l : List α) :
    ((l.map (fun a => (([] : List String), a, (0 : Nat)))).map (fun s => s.2.2)).sum = 0 := by
  induction l with
  | nil => rfl
  | cons a l ih => simpa using ih

/-- Helper: the processor-side attachment pass leaves a portfolio whose
attachments are all `completed` untouched — no texts, unchanged items, no
extraction call. -/
theorem processAttachmentsP_all_completed (env : BatchEnv) (p : Portfolio)
    (h : ∀ a ∈ p.allAttachments, a.extractionStatus = some .completed) :
    processAttachmentsP env p = ⟨[], p.portfolioItems, 0⟩ := by
  have hitem : ∀ it ∈ p.portfolioItems, ∀ a ∈ it.attachments,
      a.extractionStatus = some ExtStatus.completed := by
    intro it hit a ha
    refine h a ?_
    simp only [Portfolio.allAttachments, List.mem_flatten, List.mem_map]
    exact ⟨it.attachments, ⟨it, hit, rfl⟩, ha⟩
  have hmap : p.portfolioItems.map (fun it =>
      let steps := it.attachments.map (stepAttachP env)
      ((steps.map (fun s => s.1)).flatten,
        { it with attachments := steps.map (fun s => s.2.1) },
        (steps.map (fun s => s.2.2)).sum)) =
      p.portfolioItems.map (fun it => (([] : List String), it, 0)) := by
    refine List.map_congr_left (fun it hit => ?_)
    have hsteps : it.attachments.map (stepAttachP env) =
        it.attachments.map (fun a => (([] : List String), a, 0)) :=
      List.map_congr_left (fun a ha => stepAttachP_completed env a (hitem it hit a ha))
    simp only [hsteps]
    refine Prod.ext (tripleFst_flatten _) (Prod.ext ?_ (tripleThd_sum _))
    exact congrArg (fun l => { it with attachments := l }) (tripleSnd_map it.attachments)
  simp only [processAttachmentsP, hmap]
  simp only [AttachResult.mk.injEq]
  exact ⟨tripleFst_flatten _, tripleSnd_map _, tripleThd_sum _⟩

/-- Helper: `PortfolioProcessor.process` performs exactly the extraction
calls of its attachment pass. -/
theorem processPortfolioP_ocrCalls (env : BatchEnv) (p : Portfolio) :
    (processPortfolioP env p).ocrCalls = (processAttachmentsP env p).ocrCalls := by
  simp only [processPortfolioP]
  split
  · split <;> rfl
  · split
    · rfl
    · split <;> rfl

/-- Helper: `BatchService.process_single_portfolio` performs exactly the
extraction calls of its attachment pass. -/
theorem processSingle_ocrCalls (env : BatchEnv) (p : Portfolio) :
    (processSinglePortfolio env p).ocrCalls = (processAttachmentsB env p).2 := by
  simp only [processSinglePortfolio]
  split
  · rfl
  · split
    · rfl
    · split <;> rfl

/-- Helper: the batch-side attachment pass invokes extraction once per
attachment whose `filePath` is truthy and whose file exists — regardless
of `extractionStatus`. -/
theorem ocrCallsB_count (env : BatchEnv) :
    ∀ l : List Attachment,
      ((l.map (stepAttachB env)).map Prod.snd).sum =
        l.countP (fun a => truthy a.filePath && env.fileExists (a.filePath.getD "")) := by
  intro l
  induction l with
  | nil => rfl
  | cons a l ih =>
    simp only [List.map_cons, List.sum_cons, List.countP_cons, ih]
    by_cases h1 : a.filePath.getD "" = ""
    · simp [stepAttachB, truthy, h1]
    · by_cases h2 : env.fileExists (a.filePath.getD "") = true
      · cases hx : env.extractText (a.filePath.getD "") <;>
          simp [stepAttachB, truthy, h1, h2, hx] <;> omega
      · simp only [Bool.not_eq_true] at h2
        simp [stepAttachB, truthy, h1, h2]

/-- C6 (amended): `PortfolioProcessor._process_attachments` skips
attachments whose `extractionStatus` is `completed`, so for an item whose
attachments are all `completed` the processor's attachment pass
contributes no text, mutates nothing and makes no extraction call (hence
two runs of `PortfolioProcessor.process` see the same item and the same
searchable text, with zero extraction calls each); but
`BatchService._process_attachments` — the pass the batch actually runs —
ignores `extractionStatus` and invokes extraction once per attachment
whose `filePath` is truthy and whose file exists, `completed` ones
included. -/
theorem attachment_idempotence (env : BatchEnv) (p : Portfolio) :
    ((∀ a ∈ p.allAttachments, a.extractionStatus = some ExtStatus.completed) →
      processAttachmentsP env p = ⟨[], p.portfolioItems, 0⟩ ∧
      (processPortfolioP env p).ocrCalls = 0) ∧
    (processSinglePortfolio env p).ocrCalls =
      p.allAttachments.countP
        (fun a => truthy a.filePath && env.fileExists (a.filePath.getD "")) := by
  constructor
  · intro h
    have hP := processAttachmentsP_all_completed env p h
    refine ⟨hP, ?_⟩
    rw [processPortfolioP_ocrCalls, hP]
  · rw [processSingle_ocrCalls]
    exact ocrCallsB_count env p.allAttachments

/-- Witness for `attachment_idempotence`: a portfolio whose single
attachment is `completed`, where the processor-side pass does nothing and
the batch-side pass still extracts once. -/
theorem attachment_idempotence_witness :
    processAttachmentsP envC6 pC6 = ⟨[], pC6.portfolioItems, 0⟩ ∧
    (processPortfolioP envC6 pC6).ocrCalls = 0 ∧
    (processSinglePortfolio envC6 pC6).ocrCalls = 1 := by
  obtain ⟨h1, h2⟩ := (attachment_idempotence envC6 pC6).1 (by decide)
  refine ⟨h1, h2, ?_⟩
  rw [(attachment_idempotence envC6 pC6).2]
  decide

/-- C6 (counterexample): the batch's per-item processing of a portfolio
whose only attachment is already `completed` still invokes extraction on
it (once per run, so twice over two runs) — the claimed
never-re-extracted idempotence does not hold for the processing the batch
uses. -/
theorem attachment_idempotence_counterexample :
    pC6.allAttachments = [⟨some "a.pdf", some ExtStatus.completed⟩] ∧
    (processSinglePortfolio envC6 pC6).ocrCalls = 1 := by
  decide

/-- Helper: the chunked analysis loop of `_analyze_candidates` computes
the same list as analysing every candidate independently and keeping the
survivors, provided the configured batch size is positive and the fuel
covers the list. -/
theorem analyzeCandidatesGo_eq (env : SearchEnv) (hb : env.batchSize ≠ 0) :
    ∀ (fuel : Nat) (l : List Cand), l.length ≤ fuel →
      analyzeCandidatesGo env fuel l = l.filterMap (analyzeOne env) := by
  intro fuel
  induction fuel with
  | zero =>
    intro l hl
    have hnil : l = [] := List.length_eq_zero.mp (Nat.le_zero.mp hl)
    subst hnil
    rfl
  | succ n ih =>
    intro l hl
    cases l with
    | nil => rfl
    | cons c cs =>
      rw [analyzeCandidatesGo]
      rw [ih ((c :: cs).drop env.batchSize) (by
        have hbpos : 0 < env.batchSize := Nat.pos_of_ne_zero hb
        simp only [List.length_drop, List.length_cons]
        simp only [List.length_cons] at hl
        omega)]
      rw [analyzeBatch, ← List.filterMap_append, List.take_append_drop]

/-- Helper: wrapper of `analyzeCandidatesGo_eq` at the list's own
length. -/
theorem analyzeCandidates_filterMap (env : SearchEnv) (hb : env.batchSize ≠ 0)
    (l : List Cand) : analyzeCandidates env l = l.filterMap (analyzeOne env) :=
  analyzeCandidatesGo_eq env hb l.length l le_rfl

/-- Helper: a candidate whose analysis call times out on every attempt is
discarded by the retry loop, whatever the attempt budget. -/
theorem analyzeRetryLoop_timeout (env : SearchEnv) (c : Cand)
    (h : ∀ n, env.analyze c n = .timeout) :
    ∀ (remaining attempt : Nat), analyzeRetryLoop env c remaining attempt = none := by
  intro remaining
  induction remaining with
  | zero => intro attempt; rfl
  | succ r _ => intro attempt; simp [analyzeRetryLoop, h attempt]

/-- C7: if the vector-search stage returns zero candidates, the search
returns `Success` with an empty candidate list and `totalResults = 0`,
invoking neither the reranker nor the per-candidate analysis fan-out. -/
theorem search_empty_vector_short_circuit (env : SearchEnv) (q : String) (v : List Int)
    (he : env.embedQuery q = .ok v) (hv : env.vectorSearch v = .ret []) :
    searchPortfolios env q = ⟨.ok ⟨"success", [], env.fmtTime, 0⟩, 0, 0⟩ := by
  simp [searchPortfolios, he, hv]

/-- Witness for `search_empty_vector_short_circuit`: a query whose stub
vector search returns no candidates yields the empty successful
response. -/
theorem search_empty_vector_short_circuit_witness :
    searchPortfolios senvC7 "조건에 맞는 인재 없음 xyz123" =
      ⟨.ok ⟨"success", [], "0.10s", 0⟩, 0, 0⟩ :=
  search_empty_vector_short_circuit senvC7 "조건에 맞는 인재 없음 xyz123" [2] rfl rfl

/-- C8: a candidate whose analysis call exceeds the per-candidate timeout
on every attempt is absent from the final candidate list (its analysis
yields `None`), while the overall search still returns `Success` and the
final list is exactly the independent analysis of the other candidates,
in rerank order. -/
theorem timeout_candidate_dropped (env : SearchEnv) (q : String) (v : List Int)
    (srs xs ys : List Cand) (c : Cand)
    (he : env.embedQuery q = .ok v) (hv : env.vectorSearch v = .ret srs)
    (hsrs : srs ≠ []) (hr : env.rerank srs = .ret (xs ++ c :: ys))
    (hb : env.batchSize ≠ 0)
    (ht : ∀ n, env.analyze c n = .timeout) :
    analyzeOne env c = none ∧
    searchPortfolios env q =
      ⟨.ok ⟨"success", (xs ++ ys).filterMap (analyzeOne env), env.fmtTime,
          ((xs ++ ys).filterMap (analyzeOne env)).length⟩, 1, (xs ++ c :: ys).length⟩ := by
  have hnone : analyzeOne env c = none := by
    rw [analyzeOne]
    split
    · rfl
    · exact analyzeRetryLoop_timeout env c ht _ _
  refine ⟨hnone, ?_⟩
  have hne : xs ++ c :: ys ≠ [] := by simp
  simp only [searchPortfolios, he, hv, hsrs, hr, if_neg hsrs, if_neg hne, if_neg hb]
  rw [analyzeCandidates_filterMap env hb]
  simp [List.filterMap_append, List.filterMap_cons, hnone]

/-- Witness for `timeout_candidate_dropped`: two reranked candidates, the
second always timing out: the response keeps only the first, with
`totalResults = 1`, and the overall call succeeds. -/
theorem timeout_candidate_dropped_witness :
    analyzeOne senvC8 candT = none ∧
    searchPortfolios senvC8 "백엔드 채용" =
      ⟨.ok ⟨"success", [⟨"user-1", 1, "근거 있음", ["키워드"]⟩], "0.20s", 1⟩, 1, 2⟩ := by
  have h := timeout_candidate_dropped senvC8 "백엔드 채용" [1] [candOk, candT]
    [candOk] [] candT rfl rfl (by decide) rfl (by decide) (fun _ => rfl)
  refine ⟨h.1, ?_⟩
  rw [h.2]
  decide

/-- Helper: any `Ok` produced by `analyze_candidate_match` carries a
present `matchScore` within `[0, 1]` — the validation admits nothing
else. -/
theorem analyzeCandidateMatch_ok_range (llm : LLMOutcome) (a : AnalysisOut)
    (h : analyzeCandidateMatch llm = .ok a) :
    ∃ s, a.matchScore = some s ∧ 0 ≤ s ∧ s ≤ 1 := by
  cases llm with
  | content parsed =>
    cases parsed with
    | none => simp [analyzeCandidateMatch] at h
    | some r =>
      simp only [analyzeCandidateMatch] at h
      split at h
      · rename_i hcond
        cases h2 : r.matchScore with
        | none =>
          rw [h2] at hcond
          norm_num at hcond
        | some s =>
          rw [h2] at hcond
          simp only [Option.getD_some] at hcond
          cases h
          exact ⟨s, h2, hcond.1, hcond.2⟩
      · cases h
  | rateLimited => simp [analyzeCandidateMatch] at h
  | authFailed => simp [analyzeCandidateMatch] at h
  | apiError => simp [analyzeCandidateMatch] at h
  | otherError => simp [analyzeCandidateMatch] at h

/-- Helper: when every analysis attempt for a candidate either times out,
raises, or returns a `Result` produced by `analyze_candidate_match`, any
`CandidateResult` the retry loop yields has its score in `[0, 1]`. -/
theorem analyzeRetryLoop_score_range (env : SearchEnv) (c : Cand)
    (hfac : ∀ n, env.analyze c n = .timeout ∨ env.analyze c n = .raise ∨
      ∃ llm, env.analyze c n = .res (analyzeCandidateMatch llm)) :
    ∀ (remaining attempt : Nat) (cr : CandidateResult),
      analyzeRetryLoop env c remaining attempt = some cr →
      0 ≤ cr.matchScore ∧ cr.matchScore ≤ 1 := by
  intro remaining
  induction remaining with
  | zero =>
    intro attempt cr h
    simp [analyzeRetryLoop] at h
  | succ r ih =>
    intro attempt cr h
    cases hstep : env.analyze c attempt with
    | timeout =>
      simp only [analyzeRetryLoop, hstep] at h
      cases h
    | raise =>
      simp only [analyzeRetryLoop, hstep] at h
      cases h
    | res rr =>
      rcases rr with an | k
      · simp only [analyzeRetryLoop, hstep] at h
        rcases hfac attempt with hh | hh | ⟨llm, hh⟩
        · rw [hstep] at hh; cases hh
        · rw [hstep] at hh; cases hh
        · rw [hstep] at hh
          injection hh with hh
          obtain ⟨s, hs, h0, h1⟩ := analyzeCandidateMatch_ok_range llm an hh.symm
          injection h with h
          subst h
          simpa [hs] using ⟨h0, h1⟩
      · simp only [analyzeRetryLoop, hstep] at h
        split at h
        · exact ih (attempt + 1) cr h
        · cases h

/-- Helper: lift of `analyzeRetryLoop_score_range` to
`_analyze_single_candidate_with_retry`. -/
theorem analyzeOne_score_range (env : SearchEnv) (c : Cand)
    (hfac : ∀ n, env.analyze c n = .timeout ∨ env.analyze c n = .raise ∨
      ∃ llm, env.analyze c n = .res (analyzeCandidateMatch llm))
    (cr : CandidateResult) (h : analyzeOne env c = some cr) :
    0 ≤ cr.matchScore ∧ cr.matchScore ≤ 1 := by
  rw [analyzeOne] at h
  split at h
  · cases h
  · exact analyzeRetryLoop_score_range env c hfac _ _ cr h

/-- C9: `analyze_candidate_match` only returns `Ok` when the parsed
`matchScore` is present and within `[0, 1]`; a parsed output whose
`matchScore` is outside that range (missing scores default to `-1`) is
classified `Err(InvalidDataError)`, and a candidate receiving that
failure is dropped from the results, never clamped; consequently, when
the search's analysis calls are served by `analyze_candidate_match`,
every `CandidateResult` in a successful response has
`matchScore ∈ [0, 1]`. -/
theorem match_score_in_range (env : SearchEnv) (q : String) (llm : LLMOutcome)
    (a : AnalysisOut) (c : Cand) (resp : SearchResponse) (cr : CandidateResult) :
    (analyzeCandidateMatch llm = .ok a → ∃ s, a.matchScore = some s ∧ 0 ≤ s ∧ s ≤ 1) ∧
    ((a.matchScore.getD (-1) < 0 ∨ 1 < a.matchScore.getD (-1)) →
      analyzeCandidateMatch (.content (some a)) = .err .invalidData) ∧
    ((a.matchScore.getD (-1) < 0 ∨ 1 < a.matchScore.getD (-1)) →
      env.analyze c 0 = .res (analyzeCandidateMatch (.content (some a))) →
      analyzeOne env c = none) ∧
    ((∀ c2 n, env.analyze c2 n = .timeout ∨ env.analyze c2 n = .raise ∨
        ∃ llm2, env.analyze c2 n = .res (analyzeCandidateMatch llm2)) →
      (searchPortfolios env q).result = .ok resp →
      cr ∈ resp.candidates →
      0 ≤ cr.matchScore ∧ cr.matchScore ≤ 1) := by
  have hbad : (a.matchScore.getD (-1) < 0 ∨ 1 < a.matchScore.getD (-1)) →
      analyzeCandidateMatch (.content (some a)) = .err .invalidData := by
    intro hout
    simp only [analyzeCandidateMatch]
    rw [if_neg]
    rcases hout with hout | hout <;> intro hcon
    · exact absurd hcon.1 (by linarith)
    · exact absurd hcon.2 (by linarith)
  refine ⟨fun h => analyzeCandidateMatch_ok_range llm a h, hbad, ?_, ?_⟩
  · intro hout hstep
    rw [hbad hout] at hstep
    rw [analyzeOne]
    split
    · rfl
    · cases hR : env.rlMaxRetries with
      | zero => rfl
      | succ r =>
        simp only [analyzeRetryLoop, hstep]
        rw [if_neg (by rintro ⟨h1, -⟩; cases h1)]
  · intro hfac hres hmem
    cases hemb : env.embedQuery q with
    | err k =>
      simp only [searchPortfolios, hemb] at hres
      cases hres
    | ok v =>
      cases hvs : env.vectorSearch v with
      | raise =>
        simp only [searchPortfolios, hemb, hvs] at hres
        cases hres
      | ret srs =>
        by_cases hsrs : srs = []
        · simp only [searchPortfolios, hemb, hvs, hsrs, if_pos] at hres
          cases hres
          cases hmem
        · cases hrr : env.rerank srs with
          | raise =>
            simp only [searchPortfolios, hemb, hvs, if_neg hsrs, hrr] at hres
            cases hres
          | ret rr =>
            by_cases hrre : rr = []
            · simp only [searchPortfolios, hemb, hvs, if_neg hsrs, hrr, hrre, if_pos] at hres
              cases hres
              cases hmem
            · by_cases hb : env.batchSize = 0
              · simp only [searchPortfolios, hemb, hvs, if_neg hsrs, hrr, if_neg hrre,
                  if_pos hb] at hres
                cases hres
              · simp only [searchPortfolios, hemb, hvs, if_neg hsrs, hrr, if_neg hrre,
                  if_neg hb] at hres
                cases hres
                rw [analyzeCandidates_filterMap env hb] at hmem
                obtain ⟨c2, _, hone⟩ := List.mem_filterMap.mp hmem
                exact analyzeOne_score_range env c2 (hfac c2) cr hone

/-- Witness for `match_score_in_range`: on a concrete environment whose
analysis is served by `analyze_candidate_match` with a valid reply, the
surviving candidate's score lies in `[0, 1]`; and the out-of-range reply
`outBad` is classified `InvalidInput`. -/
theorem match_score_in_range_witness :
    (0 : ℚ) ≤ (CandidateResult.mk "user-1" 1 "근거 있음" ["키워드"]).matchScore ∧
    (CandidateResult.mk "user-1" 1 "근거 있음" ["키워드"]).matchScore ≤ 1 ∧
    analyzeCandidateMatch (.content (some outBad)) = .err .invalidData := by
  have h := match_score_in_range senvC9 "백엔드 인재" (.content (some outGood)) outBad
    candOk ⟨"success", [⟨"user-1", 1, "근거 있음", ["키워드"]⟩], "0.30s", 1⟩
    ⟨"user-1", 1, "근거 있음", ["키워드"]⟩
  have h4 := h.2.2.2 (fun c2 n => Or.inr (Or.inr ⟨.content (some outGood), rfl⟩))
    (by decide) (by decide)
  exact ⟨h4.1, h4.2, h.2.1 (by norm_num [outBad])⟩
